import Mathlib

/-!
Shallow embedding of the fish-speech dialogue-to-audio pipeline
(`generate_dialog.py` and `generate_dialog_batch.py`).

Side effects (HTTP requests, file writes, error-log appends, directory
creation) are modelled as an explicit trace of `Event`s produced in the
order the Python code performs them.  The TTS service is an oracle
function from requests to responses.  Audio bytes are lists of naturals;
pydub audio segments are symbolic `Seg` tokens (a clip identified by its
file path, or a block of silence of a given duration in milliseconds).
-/

namespace FishSpeech

/-- Raw audio bytes, modelled as a list of naturals. -/
abbrev Bytes := List Nat

/-- The payload of a single-turn TTS request (`ServeTTSRequest` in `tools.schema`),
as built by `generate_tts`. -/
structure ServeTTSRequest where
  text : String
  references : List String
  reference_id : String
  normalize : Bool
  format : String
  use_memory_cache : String
deriving DecidableEq, Repr

/-- The payload of a batch TTS request (`ServeTTSBatchRequest` in `tools.schema`),
as built by `generate_audio_batch`. -/
structure ServeTTSBatchRequest where
  texts : List String
  references : List String
  reference_id : String
  normalize : Bool
  format : String
deriving DecidableEq, Repr

/-- An HTTP response to a single-turn request: status code, body bytes
(`response.content`) and body text (`response.text`, used in error messages). -/
structure TTSResponse where
  status_code : Nat
  content : Bytes
  text : String
deriving DecidableEq, Repr

/-- An HTTP response to a batch request.  On success the body is a msgpack
map; `audios` models the presence and value of its `audios` key
(`response_data.get` with a `[]` default is `audios.getD []`). -/
structure BatchResponse where
  status_code : Nat
  audios : Option (List Bytes)
  text : String
deriving DecidableEq, Repr

/-- One pydub segment of the combined track: a clip read from a wav file,
or inserted silence of the given duration in milliseconds. -/
inductive Seg where
  | clip (path : String)
  | silence (ms : Nat)
deriving DecidableEq, Repr

/-- The JSON manifest written by `save_json`. -/
structure Manifest where
  conversation_id : String
  user_turns : List String
  assistant_turns : List String
  user_reference_id : String
  assistant_reference_id : String
deriving DecidableEq, Repr

/-- An observable side effect, in the order the code performs it. -/
inductive Event where
  | netCall (url : String) (req : ServeTTSRequest)
  | batchNetCall (url : String) (req : ServeTTSBatchRequest)
  | writeFile (path : String) (content : Bytes)
  | appendFile (path : String) (content : String)
  | mkdirs (path : String)
  | writeCombined (path : String) (track : List Seg)
  | writeManifest (path : String) (m : Manifest)
deriving DecidableEq, Repr

/-- One line of the input JSONL: an exchange may hold a user utterance
and/or an assistant utterance. -/
structure Exchange where
  user : Option String
  assistant : Option String
deriving DecidableEq, Repr

/-- A conversation record: an id and an ordered list of exchanges. -/
structure Conversation where
  id : String
  data : List Exchange
deriving DecidableEq, Repr

/-- Models `os.path.join` for the two-argument uses in the source. -/
def joinPath (dir name : String) : String := dir ++ "/" ++ name

/-- Models `os.path.dirname`: everything before the last path separator. -/
def dirname (p : String) : String :=
  String.intercalate "/" ((p.splitOn "/").dropLast)

/-- The error-log path used by `generate_tts`:
`os.path.join(os.path.dirname(output_path), "error_log.txt")`. -/
def error_log_path (output_path : String) : String :=
  joinPath (dirname output_path) "error_log.txt"

/-- The per-turn wav file name: role, `_turn_`, the 1-based index, `.wav`. -/
def turnFileName (role : String) (idx : Nat) : String :=
  role ++ "_turn_" ++ toString (idx + 1) ++ ".wav"

/-- The cache hint chosen in `generate_audio`:
`"never" if idx == 0 else "on-demand"`. -/
def cacheHint (idx : Nat) : String :=
  if idx = 0 then "never" else "on-demand"

/-- The single-turn endpoint URL. -/
def tts_url : String := "http://127.0.0.1:8080/v1/tts"

/-- The batch endpoint URL. -/
def tts_batch_url : String := "http://127.0.0.1:8081/v1/tts/batch"

/-- The request payload built inside `generate_tts`. -/
def mkSingleRequest (text reference_id use_memory_cache : String) : ServeTTSRequest :=
  { text := text, references := [], reference_id := reference_id,
    normalize := true, format := "wav", use_memory_cache := use_memory_cache }

/-- The request payload built inside `generate_audio_batch`. -/
def mkBatchRequest (turns : List String) (reference_id : String) : ServeTTSBatchRequest :=
  { texts := turns, references := [], reference_id := reference_id,
    normalize := true, format := "wav" }

/-- The error record appended by `generate_tts` on a non-200 response
(the trailing request-payload dump is summarised by its text fields). -/
def errorMessageSingle (text : String) (status : Nat) (body : String) : String :=
  "Error generating audio for text " ++ text ++ ": " ++ toString status ++ " - " ++ body

/-- The error record appended by `generate_audio_batch` on a non-200 response. -/
def errorMessageBatch (status : Nat) (body : String) : String :=
  "Error generating batch audio: " ++ toString status ++ " - " ++ body

/-- Models `generate_tts` from `generate_dialog.py`: build the request, POST it,
on a 200 write the body to `output_path` and report success; otherwise
append an error record to the conversation's `error_log.txt` and report
failure.  Returns the boolean outcome and the trace of effects. -/
def generate_tts (tts : ServeTTSRequest → TTSResponse)
    (text reference_id use_memory_cache output_path : String) : Bool × List Event :=
  let req := mkSingleRequest text reference_id use_memory_cache
  let response := tts req
  if response.status_code = 200 then
    (true, [Event.netCall tts_url req, Event.writeFile output_path response.content])
  else
    (false, [Event.netCall tts_url req,
             Event.appendFile (error_log_path output_path)
               (errorMessageSingle text response.status_code response.text)])

/-- The loop body of `generate_audio`: walk the turns with their index,
request each one, collect written paths, and on the first failure drop the
collected list and stop. -/
def generate_audio_go (tts : ServeTTSRequest → TTSResponse)
    (reference_id conversation_dir role : String) :
    Nat → List String → List String → List String × List Event
  | _idx, [], audio_files => (audio_files, [])
  | idx, text :: rest, audio_files =>
    let use_memory_cache := cacheHint idx
    let audio_file_path := joinPath conversation_dir (turnFileName role idx)
    let r := generate_tts tts text reference_id use_memory_cache audio_file_path
    if r.1 then
      let rest_result := generate_audio_go tts reference_id conversation_dir role
        (idx + 1) rest (audio_files ++ [audio_file_path])
      (rest_result.1, r.2 ++ rest_result.2)
    else
      ([], r.2)

/-- Models `generate_audio` from `generate_dialog.py` (single-turn mode):
returns the ordered list of written file paths, or `[]` if any turn
failed, together with the trace of effects. -/
def generate_audio (tts : ServeTTSRequest → TTSResponse) (turns : List String)
    (reference_id conversation_id conversation_dir role : String) :
    List String × List Event :=
  generate_audio_go tts reference_id conversation_dir role 0 turns []

/-- The write-out loop of `generate_audio_batch` over the decoded `audios`
buffers, with their 0-based enumeration index. -/
def batchWriteGo (conversation_dir role : String) :
    Nat → List Bytes → List String × List Event
  | _idx, [] => ([], [])
  | idx, audio_bytes :: rest =>
    let audio_file_path := joinPath conversation_dir (turnFileName role idx)
    let r := batchWriteGo conversation_dir role (idx + 1) rest
    (audio_file_path :: r.1, Event.writeFile audio_file_path audio_bytes :: r.2)

/-- Models `generate_audio_batch` from `generate_dialog_batch.py`: send one batch
request; on a 200 decode the `audios` list (default `[]`) and write the
buffers out in order; on failure append one error record and return `[]`. -/
def generate_audio_batch (ttsBatch : ServeTTSBatchRequest → BatchResponse)
    (turns : List String)
    (reference_id conversation_id conversation_dir role : String) :
    List String × List Event :=
  let data := mkBatchRequest turns reference_id
  let response := ttsBatch data
  let callEv := Event.batchNetCall tts_batch_url data
  if response.status_code = 200 then
    let audios := response.audios.getD []
    let written := batchWriteGo conversation_dir role 0 audios
    (written.1, callEv :: written.2)
  else
    ([], [callEv,
          Event.appendFile (joinPath conversation_dir "error_log.txt")
            (errorMessageBatch response.status_code response.text)])

/-- The combined track built by `merge_audio_files`: fold over the zipped
lists appending user clip, 500ms silence, assistant clip, 500ms silence,
then append the remaining clips (Python slice-`or`-slice) with no silence. -/
def merge_audio_files_track (user_audio_files assistant_audio_files : List String) :
    List Seg :=
  let combined := (user_audio_files.zip assistant_audio_files).foldl
    (fun acc p =>
      acc ++ [Seg.clip p.1, Seg.silence 500, Seg.clip p.2, Seg.silence 500]) []
  let userRest := user_audio_files.drop assistant_audio_files.length
  let remaining_audio_files :=
    if userRest = [] then assistant_audio_files.drop user_audio_files.length
    else userRest
  remaining_audio_files.foldl (fun acc f => acc ++ [Seg.clip f]) combined

/-- Models `merge_audio_files`: compute the combined track and export it once to
the path formed from the conversation id plus `_combined.wav`. -/
def merge_audio_files (conversation_id conversation_dir : String)
    (user_audio_files assistant_audio_files : List String) : List Event :=
  [Event.writeCombined
     (joinPath conversation_dir (conversation_id ++ "_combined.wav"))
     (merge_audio_files_track user_audio_files assistant_audio_files)]

/-- Models `save_json`: write the manifest JSON once to the path formed from the
conversation id plus `.json`. -/
def save_json (conversation_id conversation_dir : String)
    (user_turns assistant_turns : List String)
    (user_reference_id assistant_reference_id : String) : List Event :=
  [Event.writeManifest (joinPath conversation_dir (conversation_id ++ ".json"))
     { conversation_id := conversation_id,
       user_turns := user_turns,
       assistant_turns := assistant_turns,
       user_reference_id := user_reference_id,
       assistant_reference_id := assistant_reference_id }]

/-- The environment a conversation runs in: the TTS oracles, the
pre-existing filesystem (directories and files) used by the resumability
probe, and the results of the two `random.choice` draws over the
reference catalog. -/
structure Env where
  tts : ServeTTSRequest → TTSResponse
  ttsBatch : ServeTTSBatchRequest → BatchResponse
  existingDirs : List String
  existingFiles : List String
  chooseUser : String
  chooseAssistant : String

/-- Models `generate_audio_for_conversation` from `generate_dialog.py`: skip if
the manifest already exists; otherwise draw a voice per role, collect the
per-role turn lists, generate audio for both roles, and only when both
succeeded merge the track and write the manifest. -/
def generate_audio_for_conversation (env : Env) (conversation : Conversation)
    (output_dir : String) : List Event :=
  let conversation_id := conversation.id
  let conversation_dir := joinPath output_dir conversation_id
  if conversation_dir ∈ env.existingDirs ∧
      joinPath conversation_dir (conversation_id ++ ".json") ∈ env.existingFiles then
    []
  else
    let user_reference_id := env.chooseUser
    let assistant_reference_id := env.chooseAssistant
    let user_turns := conversation.data.filterMap (fun e => e.user)
    let assistant_turns := conversation.data.filterMap (fun e => e.assistant)
    let u := generate_audio env.tts user_turns user_reference_id
      conversation_id conversation_dir "user"
    let a := generate_audio env.tts assistant_turns assistant_reference_id
      conversation_id conversation_dir "assistant"
    if u.1 = [] ∨ a.1 = [] then
      Event.mkdirs conversation_dir :: (u.2 ++ a.2)
    else
      Event.mkdirs conversation_dir ::
        (u.2 ++ a.2 ++
          merge_audio_files conversation_id conversation_dir u.1 a.1 ++
          save_json conversation_id conversation_dir user_turns assistant_turns
            user_reference_id assistant_reference_id)

/-- Models `generate_audio_for_conversation` from `generate_dialog_batch.py`:
identical orchestration, but turns are generated through the batch client. -/
def generate_audio_for_conversation_batch (env : Env) (conversation : Conversation)
    (output_dir : String) : List Event :=
  let conversation_id := conversation.id
  let conversation_dir := joinPath output_dir conversation_id
  if conversation_dir ∈ env.existingDirs ∧
      joinPath conversation_dir (conversation_id ++ ".json") ∈ env.existingFiles then
    []
  else
    let user_reference_id := env.chooseUser
    let assistant_reference_id := env.chooseAssistant
    let user_turns := conversation.data.filterMap (fun e => e.user)
    let assistant_turns := conversation.data.filterMap (fun e => e.assistant)
    let u := generate_audio_batch env.ttsBatch user_turns user_reference_id
      conversation_id conversation_dir "user"
    let a := generate_audio_batch env.ttsBatch assistant_turns assistant_reference_id
      conversation_id conversation_dir "assistant"
    if u.1 = [] ∨ a.1 = [] then
      Event.mkdirs conversation_dir :: (u.2 ++ a.2)
    else
      Event.mkdirs conversation_dir ::
        (u.2 ++ a.2 ++
          merge_audio_files conversation_id conversation_dir u.1 a.1 ++
          save_json conversation_id conversation_dir user_turns assistant_turns
            user_reference_id assistant_reference_id)

/-- Texts of the single-turn requests issued in a trace, in order. -/
def netTexts (evs : List Event) : List String :=
  evs.filterMap fun e =>
    match e with
    | Event.netCall _ r => some r.text
    | _ => none

/-- Cache hints of the single-turn requests issued in a trace, in order. -/
def netHints (evs : List Event) : List String :=
  evs.filterMap fun e =>
    match e with
    | Event.netCall _ r => some r.use_memory_cache
    | _ => none

/-- Manifest writes occurring in a trace, in order. -/
def manifestWrites (evs : List Event) : List (String × Manifest) :=
  evs.filterMap fun e =>
    match e with
    | Event.writeManifest p m => some (p, m)
    | _ => none

/-- Combined-track writes occurring in a trace, in order. -/
def combinedWrites (evs : List Event) : List (String × List Seg) :=
  evs.filterMap fun e =>
    match e with
    | Event.writeCombined p t => some (p, t)
    | _ => none

/-- Error-log appends occurring in a trace, in order. -/
def appendEvents (evs : List Event) : List (String × String) :=
  evs.filterMap fun e =>
    match e with
    | Event.appendFile p s => some (p, s)
    | _ => none

/-- Plain file writes occurring in a trace, in order. -/
def fileWrites (evs : List Event) : List (String × Bytes) :=
  evs.filterMap fun e =>
    match e with
    | Event.writeFile p c => some (p, c)
    | _ => none

/-- A spec-side restatement of the Audio Assembler rule: interleave the
common prefix position by position as user clip, 500ms silence, assistant
clip, 500ms silence, then append the remaining clips of the longer list
with no silence before or between them. -/
def mergeSpec (user_audio_files assistant_audio_files : List String) : List Seg :=
  ((user_audio_files.zip assistant_audio_files).flatMap fun p =>
      [Seg.clip p.1, Seg.silence 500, Seg.clip p.2, Seg.silence 500])
    ++ (if assistant_audio_files.length ≤ user_audio_files.length
        then user_audio_files.drop assistant_audio_files.length
        else assistant_audio_files.drop user_audio_files.length).map Seg.clip

lemma foldl_append_flatMap {β : Type} (f : β → List Seg) :
    ∀ (l : List β) (acc : List Seg),
    l.foldl (fun a x => a ++ f x) acc = acc ++ l.flatMap f := by
  intro l
  induction l with
  | nil => intro acc; simp
  | cons x xs ih => intro acc; simp [List.foldl_cons, ih]

lemma foldl_append_map_clip :
    ∀ (l : List String) (acc : List Seg),
    l.foldl (fun a f => a ++ [Seg.clip f]) acc = acc ++ l.map Seg.clip := by
  intro l
  induction l with
  | nil => intro acc; simp
  | cons x xs ih => intro acc; simp [List.foldl_cons, ih]

lemma remaining_slices_eq (u a : List String) :
    (if u.drop a.length = [] then a.drop u.length else u.drop a.length)
      = if a.length ≤ u.length then u.drop a.length else a.drop u.length := by
  rcases le_or_lt a.length u.length with h | h
  · rw [if_pos h]
    by_cases hd : u.drop a.length = []
    · rw [if_pos hd, hd]
      have h1 : u.length ≤ a.length := List.drop_eq_nil_iff.mp hd
      have h2 : a.length ≤ u.length := h
      rw [List.drop_eq_nil_iff.mpr]
      omega
    · rw [if_neg hd]
  · have hdrop : u.drop a.length = [] := List.drop_eq_nil_iff.mpr (le_of_lt h)
    rw [if_pos hdrop, if_neg (not_le.mpr h)]

lemma merge_track_eq_spec (u a : List String) :
    merge_audio_files_track u a = mergeSpec u a := by
  unfold merge_audio_files_track mergeSpec
  rw [foldl_append_flatMap, foldl_append_flatMap, remaining_slices_eq]
  simp
  exact (List.map_eq_flatMap Seg.clip _).symm

lemma generate_tts_ok (tts : ServeTTSRequest → TTSResponse)
    (text ref cache path : String)
    (h : (tts (mkSingleRequest text ref cache)).status_code = 200) :
    generate_tts tts text ref cache path =
      (true, [Event.netCall tts_url (mkSingleRequest text ref cache),
              Event.writeFile path (tts (mkSingleRequest text ref cache)).content]) := by
  simp [generate_tts, h]

lemma generate_tts_fail (tts : ServeTTSRequest → TTSResponse)
    (text ref cache path : String)
    (h : (tts (mkSingleRequest text ref cache)).status_code ≠ 200) :
    generate_tts tts text ref cache path =
      (false, [Event.netCall tts_url (mkSingleRequest text ref cache),
               Event.appendFile (error_log_path path)
                 (errorMessageSingle text (tts (mkSingleRequest text ref cache)).status_code
                   (tts (mkSingleRequest text ref cache)).text)]) := by
  simp [generate_tts, h]

lemma generate_audio_go_cons_ok (tts : ServeTTSRequest → TTSResponse)
    (ref dir role : String) (idx : Nat) (t : String) (rest acc : List String)
    (h : (tts (mkSingleRequest t ref (cacheHint idx))).status_code = 200) :
    generate_audio_go tts ref dir role idx (t :: rest) acc =
      ((generate_audio_go tts ref dir role (idx + 1) rest
          (acc ++ [joinPath dir (turnFileName role idx)])).1,
       Event.netCall tts_url (mkSingleRequest t ref (cacheHint idx)) ::
       Event.writeFile (joinPath dir (turnFileName role idx))
           (tts (mkSingleRequest t ref (cacheHint idx))).content ::
       (generate_audio_go tts ref dir role (idx + 1) rest
          (acc ++ [joinPath dir (turnFileName role idx)])).2) := by
  rw [generate_audio_go]
  simp only [generate_tts_ok tts t ref (cacheHint idx) _ h]
  simp

lemma generate_audio_go_cons_fail (tts : ServeTTSRequest → TTSResponse)
    (ref dir role : String) (idx : Nat) (t : String) (rest acc : List String)
    (h : (tts (mkSingleRequest t ref (cacheHint idx))).status_code ≠ 200) :
    generate_audio_go tts ref dir role idx (t :: rest) acc =
      ([], [Event.netCall tts_url (mkSingleRequest t ref (cacheHint idx)),
            Event.appendFile (error_log_path (joinPath dir (turnFileName role idx)))
              (errorMessageSingle t (tts (mkSingleRequest t ref (cacheHint idx))).status_code
                (tts (mkSingleRequest t ref (cacheHint idx))).text)]) := by
  rw [generate_audio_go]
  simp only [generate_tts_fail tts t ref (cacheHint idx) _ h]
  simp

lemma go_first_fail (tts : ServeTTSRequest → TTSResponse) (ref dir role : String) :
    ∀ (turns : List String) (k idx : Nat) (acc : List String),
    k < turns.length →
    (∀ j, j < k →
      (tts (mkSingleRequest (turns.getD j "") ref (cacheHint (idx + j)))).status_code = 200) →
    (tts (mkSingleRequest (turns.getD k "") ref (cacheHint (idx + k)))).status_code ≠ 200 →
    (generate_audio_go tts ref dir role idx turns acc).1 = [] ∧
    netTexts (generate_audio_go tts ref dir role idx turns acc).2 = turns.take (k + 1) ∧
    Event.appendFile (error_log_path (joinPath dir (turnFileName role (idx + k))))
        (errorMessageSingle (turns.getD k "")
          (tts (mkSingleRequest (turns.getD k "") ref (cacheHint (idx + k)))).status_code
          (tts (mkSingleRequest (turns.getD k "") ref (cacheHint (idx + k)))).text)
      ∈ (generate_audio_go tts ref dir role idx turns acc).2 := by
  intro turns
  induction turns with
  | nil =>
    intro k idx acc hk
    exact absurd hk (by simp)
  | cons t rest ih =>
    intro k idx acc hk hok hfail
    cases k with
    | zero =>
      have hf : (tts (mkSingleRequest t ref (cacheHint idx))).status_code ≠ 200 := by
        simpa using hfail
      rw [generate_audio_go_cons_fail tts ref dir role idx t rest acc hf]
      refine ⟨rfl, ?_, ?_⟩
      · simp [netTexts, mkSingleRequest]
      · simp
    | succ k =>
      have h0 : (tts (mkSingleRequest t ref (cacheHint idx))).status_code = 200 := by
        have := hok 0 (Nat.succ_pos k)
        simpa using this
      rw [generate_audio_go_cons_ok tts ref dir role idx t rest acc h0]
      have hok2 : ∀ j, j < k →
          (tts (mkSingleRequest (rest.getD j "") ref
            (cacheHint (idx + 1 + j)))).status_code = 200 := by
        intro j hj
        have := hok (j + 1) (Nat.succ_lt_succ hj)
        have harith : idx + (j + 1) = idx + 1 + j := by omega
        simpa [harith] using this
      have hfail2 : (tts (mkSingleRequest (rest.getD k "") ref
          (cacheHint (idx + 1 + k)))).status_code ≠ 200 := by
        have harith : idx + (k + 1) = idx + 1 + k := by omega
        simpa [harith] using hfail
      have hk2 : k < rest.length := by simpa using hk
      obtain ⟨ih1, ih2, ih3⟩ :=
        ih k (idx + 1) (acc ++ [joinPath dir (turnFileName role idx)]) hk2 hok2 hfail2
      refine ⟨ih1, ?_, ?_⟩
      · simp [netTexts, mkSingleRequest] at ih2 ⊢
        rw [ih2]
      · have harith : idx + (k + 1) = idx + 1 + k := by omega
        simp only [List.getD_cons_succ, harith]
        exact List.mem_cons_of_mem _ (List.mem_cons_of_mem _ ih3)

lemma go_hints (tts : ServeTTSRequest → TTSResponse) (ref dir role : String) :
    ∀ (turns : List String) (idx : Nat) (acc : List String),
    ∃ m, m ≤ turns.length ∧
      netHints (generate_audio_go tts ref dir role idx turns acc).2
        = (List.range' idx m).map cacheHint := by
  intro turns
  induction turns with
  | nil =>
    intro idx acc
    exact ⟨0, by simp, by simp [netHints, generate_audio_go]⟩
  | cons t rest ih =>
    intro idx acc
    by_cases h : (tts (mkSingleRequest t ref (cacheHint idx))).status_code = 200
    · obtain ⟨m, hm, hmeq⟩ := ih (idx + 1) (acc ++ [joinPath dir (turnFileName role idx)])
      refine ⟨m + 1, by simpa using Nat.succ_le_succ hm, ?_⟩
      rw [generate_audio_go_cons_ok tts ref dir role idx t rest acc h]
      have : List.range' idx (m + 1) = idx :: List.range' (idx + 1) m := rfl
      rw [this]
      simp [netHints, mkSingleRequest] at hmeq ⊢
      exact hmeq
    · refine ⟨1, by simp, ?_⟩
      rw [generate_audio_go_cons_fail tts ref dir role idx t rest acc h]
      simp [netHints, mkSingleRequest, List.range']

lemma go_classes (tts : ServeTTSRequest → TTSResponse) (ref dir role : String) :
    ∀ (turns : List String) (idx : Nat) (acc : List String),
    manifestWrites (generate_audio_go tts ref dir role idx turns acc).2 = [] ∧
    combinedWrites (generate_audio_go tts ref dir role idx turns acc).2 = [] := by
  intro turns
  induction turns with
  | nil =>
    intro idx acc
    constructor <;> simp [manifestWrites, combinedWrites, generate_audio_go]
  | cons t rest ih =>
    intro idx acc
    by_cases h : (tts (mkSingleRequest t ref (cacheHint idx))).status_code = 200
    · obtain ⟨ih1, ih2⟩ := ih (idx + 1) (acc ++ [joinPath dir (turnFileName role idx)])
      rw [generate_audio_go_cons_ok tts ref dir role idx t rest acc h]
      constructor
      · simpa [manifestWrites] using ih1
      · simpa [combinedWrites] using ih2
    · rw [generate_audio_go_cons_fail tts ref dir role idx t rest acc h]
      constructor <;> simp [manifestWrites, combinedWrites]

lemma batchWriteGo_spec (cdir role : String) :
    ∀ (audios : List Bytes) (idx : Nat),
    batchWriteGo cdir role idx audios =
      ((List.range' idx audios.length).map (fun i => joinPath cdir (turnFileName role i)),
       ((List.range' idx audios.length).zip audios).map
         (fun p => Event.writeFile (joinPath cdir (turnFileName role p.1)) p.2)) := by
  intro audios
  induction audios with
  | nil => intro idx; simp [batchWriteGo]
  | cons b rest ih =>
    intro idx
    have hr : List.range' idx (rest.length + 1) = idx :: List.range' (idx + 1) rest.length := rfl
    rw [batchWriteGo, ih (idx + 1)]
    simp [hr]

lemma batchWriteGo_classes (cdir role : String) :
    ∀ (audios : List Bytes) (idx : Nat),
    manifestWrites (batchWriteGo cdir role idx audios).2 = [] ∧
    combinedWrites (batchWriteGo cdir role idx audios).2 = [] ∧
    appendEvents (batchWriteGo cdir role idx audios).2 = [] := by
  intro audios
  induction audios with
  | nil => intro idx; refine ⟨?_, ?_, ?_⟩ <;> simp [batchWriteGo, manifestWrites, combinedWrites, appendEvents]
  | cons b rest ih =>
    intro idx
    obtain ⟨ih1, ih2, ih3⟩ := ih (idx + 1)
    rw [batchWriteGo]
    refine ⟨?_, ?_, ?_⟩
    · simpa [manifestWrites] using ih1
    · simpa [combinedWrites] using ih2
    · simpa [appendEvents] using ih3

lemma generate_audio_batch_classes (ttsBatch : ServeTTSBatchRequest → BatchResponse)
    (turns : List String) (ref cid cdir role : String) :
    manifestWrites (generate_audio_batch ttsBatch turns ref cid cdir role).2 = [] ∧
    combinedWrites (generate_audio_batch ttsBatch turns ref cid cdir role).2 = [] := by
  unfold generate_audio_batch
  by_cases h : (ttsBatch (mkBatchRequest turns ref)).status_code = 200
  · obtain ⟨h1, h2, _⟩ := batchWriteGo_classes cdir role
      ((ttsBatch (mkBatchRequest turns ref)).audios.getD []) 0
    rw [if_pos h]
    constructor
    · simpa [manifestWrites] using h1
    · simpa [combinedWrites] using h2
  · rw [if_neg h]
    constructor <;> simp [manifestWrites, combinedWrites]

/-- C2: the merged track interleaves the common prefix position by position
as user clip, 500ms silence, assistant clip, 500ms silence, then appends
the remaining clips of the longer list in order with no silence before or
between them; in particular U=[u1,u2,u3], A=[a1,a2] gives
u1,sil,a1,sil,u2,sil,a2,sil,u3, and equal-length lists give exactly the
interleaving with no trailing remainder segment. -/
theorem C2_merge_order :
    (∀ u a : List String, merge_audio_files_track u a = mergeSpec u a)
    ∧ merge_audio_files_track ["u1", "u2", "u3"] ["a1", "a2"]
        = [Seg.clip "u1", Seg.silence 500, Seg.clip "a1", Seg.silence 500,
           Seg.clip "u2", Seg.silence 500, Seg.clip "a2", Seg.silence 500,
           Seg.clip "u3"]
    ∧ merge_audio_files_track ["u1", "u2"] ["a1", "a2"]
        = [Seg.clip "u1", Seg.silence 500, Seg.clip "a1", Seg.silence 500,
           Seg.clip "u2", Seg.silence 500, Seg.clip "a2", Seg.silence 500] :=
  ⟨merge_track_eq_spec, by decide, by decide⟩

/-- C3: when the conversation directory already exists and contains the
manifest file named after the conversation id, the orchestrator produces an
empty effect trace: zero network calls, no files written or overwritten. -/
theorem C3_resumability (env : Env) (conv : Conversation) (output_dir : String)
    (h1 : joinPath output_dir conv.id ∈ env.existingDirs)
    (h2 : joinPath (joinPath output_dir conv.id) (conv.id ++ ".json")
        ∈ env.existingFiles) :
    generate_audio_for_conversation env conv output_dir = [] := by
  unfold generate_audio_for_conversation
  rw [if_pos ⟨h1, h2⟩]

/-- C4: in single-turn mode, if the first k turns succeed and turn k fails,
the generator returns the empty list (not the k already-written paths) and
the requests issued are exactly those for turns 0 through k — no request is
made for any later turn. -/
theorem C4_short_circuit (tts : ServeTTSRequest → TTSResponse)
    (turns : List String) (ref cid cdir role : String) (k : Nat)
    (hk : k < turns.length)
    (hok : ∀ j, j < k →
      (tts (mkSingleRequest (turns.getD j "") ref (cacheHint j))).status_code = 200)
    (hfail : (tts (mkSingleRequest (turns.getD k "") ref (cacheHint k))).status_code ≠ 200) :
    (generate_audio tts turns ref cid cdir role).1 = [] ∧
    netTexts (generate_audio tts turns ref cid cdir role).2 = turns.take (k + 1) := by
  have h := go_first_fail tts ref cdir role turns k 0 []
    hk (by intro j hj; simpa using hok j hj) (by simpa using hfail)
  exact ⟨h.1, h.2.1⟩

/-- A TTS oracle that fails exactly on the text `t2`. -/
def ttsC4 : ServeTTSRequest → TTSResponse := fun r =>
  if r.text = "t2" then { status_code := 500, content := [], text := "bad" }
  else { status_code := 200, content := [1], text := "ok" }

/-- Witness for C4 at a concrete input: three turns, the second fails. -/
theorem C4_short_circuit_witness :
    (generate_audio ttsC4 ["t1", "t2", "t3"] "v" "c" "out/c" "user").1 = [] ∧
    netTexts (generate_audio ttsC4 ["t1", "t2", "t3"] "v" "c" "out/c" "user").2
      = ["t1", "t2"] := by
  have h := C4_short_circuit ttsC4 ["t1", "t2", "t3"] "v" "c" "out/c" "user" 1
    (by decide)
    (by intro j hj; have hj0 : j = 0 := (by omega); rw [hj0]; decide)
    (by decide)
  simpa using h

/-- C7: in single-turn mode the sequence of `use_memory_cache` hints carried
by the issued requests, in order, is `never` for the first request (turn
index 0) and `on-demand` for every later one. -/
theorem C7_cache_hints (tts : ServeTTSRequest → TTSResponse)
    (turns : List String) (ref cid cdir role : String) :
    netHints (generate_audio tts turns ref cid cdir role).2
      = (List.range (netHints (generate_audio tts turns ref cid cdir role).2).length).map
          (fun j => if j = 0 then "never" else "on-demand") := by
  obtain ⟨m, _, hm⟩ := go_hints tts ref cdir role turns 0 []
  unfold generate_audio
  rw [hm]
  simp [List.range_eq_range', cacheHint]

/-- An environment whose output area already holds the manifest for
conversation `c`. -/
def envDone : Env :=
  { tts := fun _ => { status_code := 200, content := [], text := "" },
    ttsBatch := fun _ => { status_code := 200, audios := none, text := "" },
    existingDirs := ["out/c"], existingFiles := ["out/c/c.json"],
    chooseUser := "v", chooseAssistant := "v" }

/-- Witness for C3 at a concrete input: an already-completed conversation
produces an empty trace. -/
theorem C3_resumability_witness :
    generate_audio_for_conversation envDone ⟨"c", [⟨some "u1", some "a1"⟩]⟩ "out" = [] :=
  C3_resumability envDone ⟨"c", [⟨some "u1", some "a1"⟩]⟩ "out" (by decide) (by decide)

/-- C5: a batch call answered with a non-200 status returns the empty
result for the whole batch, appends exactly one error record to the
conversation's error log, and writes no turn audio file. -/
theorem C5_batch_failure (ttsBatch : ServeTTSBatchRequest → BatchResponse)
    (turns : List String) (ref cid cdir role : String)
    (h : (ttsBatch (mkBatchRequest turns ref)).status_code ≠ 200) :
    (generate_audio_batch ttsBatch turns ref cid cdir role).1 = [] ∧
    appendEvents (generate_audio_batch ttsBatch turns ref cid cdir role).2
      = [(joinPath cdir "error_log.txt",
          errorMessageBatch (ttsBatch (mkBatchRequest turns ref)).status_code
            (ttsBatch (mkBatchRequest turns ref)).text)] ∧
    fileWrites (generate_audio_batch ttsBatch turns ref cid cdir role).2 = [] := by
  simp [generate_audio_batch, h, appendEvents, fileWrites]

/-- A batch oracle that always fails. -/
def batchFail : ServeTTSBatchRequest → BatchResponse :=
  fun _ => { status_code := 500, audios := none, text := "boom" }

/-- Witness for C5 at a concrete input. -/
theorem C5_batch_failure_witness :
    (generate_audio_batch batchFail ["t1", "t2"] "v" "c" "out/c" "user").1 = [] ∧
    appendEvents (generate_audio_batch batchFail ["t1", "t2"] "v" "c" "out/c" "user").2
      = [(joinPath "out/c" "error_log.txt", errorMessageBatch 500 "boom")] ∧
    fileWrites (generate_audio_batch batchFail ["t1", "t2"] "v" "c" "out/c" "user").2 = [] :=
  C5_batch_failure batchFail ["t1", "t2"] "v" "c" "out/c" "user" (by decide)

lemma fileWrites_cons_batchNetCall (u : String) (q : ServeTTSBatchRequest) (l : List Event) :
    fileWrites (Event.batchNetCall u q :: l) = fileWrites l := by
  simp [fileWrites]

lemma fileWrites_batch_map (cdir role : String) :
    ∀ l : List (Nat × Bytes),
    fileWrites (l.map (fun p => Event.writeFile (joinPath cdir (turnFileName role p.1)) p.2))
      = l.map (fun p => (joinPath cdir (turnFileName role p.1), p.2)) := by
  intro l
  induction l with
  | nil => simp [fileWrites]
  | cons x xs ih => simpa [fileWrites] using ih

/-- C6: a successful batch response carrying buffers `bs` makes the
generator write exactly the 1-based files for the role, the i-th file
holding the i-th buffer, and return those paths in response order,
independently of the input texts. -/
theorem C6_batch_roundtrip (ttsBatch : ServeTTSBatchRequest → BatchResponse)
    (turns : List String) (ref cid cdir role : String) (bs : List Bytes)
    (h200 : (ttsBatch (mkBatchRequest turns ref)).status_code = 200)
    (haudios : (ttsBatch (mkBatchRequest turns ref)).audios = some bs) :
    (generate_audio_batch ttsBatch turns ref cid cdir role).1
      = (List.range bs.length).map (fun i => joinPath cdir (turnFileName role i)) ∧
    fileWrites (generate_audio_batch ttsBatch turns ref cid cdir role).2
      = ((List.range bs.length).zip bs).map
          (fun p => (joinPath cdir (turnFileName role p.1), p.2)) := by
  simp only [generate_audio_batch, h200, haudios, if_pos, if_true, eq_self_iff_true,
    Option.getD_some]
  rw [batchWriteGo_spec]
  constructor
  · simp [List.range_eq_range']
  · rw [fileWrites_cons_batchNetCall, fileWrites_batch_map]
    simp [List.range_eq_range']

/-- A batch oracle answering 200 with two audio buffers. -/
def batchOk2 : ServeTTSBatchRequest → BatchResponse :=
  fun _ => { status_code := 200, audios := some [[1], [2]], text := "" }

/-- Witness for C6 at a concrete input: two buffers come back, the two
1-based turn files are written in response order. -/
theorem C6_batch_roundtrip_witness :
    (generate_audio_batch batchOk2 ["t1", "t2"] "v" "c" "out/c" "user").1
      = ["out/c/user_turn_1.wav", "out/c/user_turn_2.wav"] ∧
    fileWrites (generate_audio_batch batchOk2 ["t1", "t2"] "v" "c" "out/c" "user").2
      = [("out/c/user_turn_1.wav", [1]), ("out/c/user_turn_2.wav", [2])] := by
  have h := C6_batch_roundtrip batchOk2 ["t1", "t2"] "v" "c" "out/c" "user"
    [[1], [2]] (by decide) (by decide)
  obtain ⟨h1, h2⟩ := h
  constructor
  · rw [h1]; decide
  · rw [h2]; decide

/-- C10: in batch mode the number of returned paths and written files
equals the number of buffers in the 200 response, with no check against
the number of input texts; an empty (or absent) `audios` list yields the
empty result, and the orchestrator then skips the merge and the manifest
for the conversation. -/
theorem C10_batch_no_length_check (ttsBatch : ServeTTSBatchRequest → BatchResponse)
    (turns : List String) (ref cid cdir role : String)
    (h200 : (ttsBatch (mkBatchRequest turns ref)).status_code = 200) :
    (generate_audio_batch ttsBatch turns ref cid cdir role).1.length
        = ((ttsBatch (mkBatchRequest turns ref)).audios.getD []).length ∧
    (fileWrites (generate_audio_batch ttsBatch turns ref cid cdir role).2).length
        = ((ttsBatch (mkBatchRequest turns ref)).audios.getD []).length ∧
    ((ttsBatch (mkBatchRequest turns ref)).audios.getD [] = [] →
        (generate_audio_batch ttsBatch turns ref cid cdir role).1 = []) ∧
    ∀ (env : Env) (conv : Conversation) (out : String),
      (generate_audio_batch env.ttsBatch (conv.data.filterMap (fun e => e.user))
          env.chooseUser conv.id (joinPath out conv.id) "user").1 = [] →
      combinedWrites (generate_audio_for_conversation_batch env conv out) = [] ∧
      manifestWrites (generate_audio_for_conversation_batch env conv out) = [] := by
  refine ⟨?_, ?_, ?_, ?_⟩
  · simp only [generate_audio_batch, h200, if_true, eq_self_iff_true, if_pos]
    rw [batchWriteGo_spec]
    simp
  · simp only [generate_audio_batch, h200, if_true, eq_self_iff_true, if_pos]
    rw [batchWriteGo_spec]
    rw [fileWrites_cons_batchNetCall, fileWrites_batch_map]
    simp
  · intro hempty
    simp only [generate_audio_batch, h200, if_true, eq_self_iff_true, if_pos, hempty]
    rw [batchWriteGo_spec]
    simp
  · intro env conv out hu
    unfold generate_audio_for_conversation_batch
    by_cases hskip : joinPath out conv.id ∈ env.existingDirs ∧
        joinPath (joinPath out conv.id) (conv.id ++ ".json") ∈ env.existingFiles
    · rw [if_pos hskip]
      constructor <;> simp [combinedWrites, manifestWrites]
    · rw [if_neg hskip]
      rw [if_pos (Or.inl hu)]
      obtain ⟨hum, huc⟩ := generate_audio_batch_classes env.ttsBatch
        (conv.data.filterMap (fun e => e.user)) env.chooseUser conv.id
        (joinPath out conv.id) "user"
      obtain ⟨ham, hac⟩ := generate_audio_batch_classes env.ttsBatch
        (conv.data.filterMap (fun e => e.assistant)) env.chooseAssistant conv.id
        (joinPath out conv.id) "assistant"
      constructor
      · simp [combinedWrites, List.filterMap_append] at hum huc ham hac ⊢
        exact ⟨huc, hac⟩
      · simp [manifestWrites, List.filterMap_append] at hum huc ham hac ⊢
        exact ⟨hum, ham⟩

lemma manifestWrites_cons_mkdirs (p : String) (l : List Event) :
    manifestWrites (Event.mkdirs p :: l) = manifestWrites l := by
  simp [manifestWrites]

lemma combinedWrites_cons_mkdirs (p : String) (l : List Event) :
    combinedWrites (Event.mkdirs p :: l) = combinedWrites l := by
  simp [combinedWrites]

lemma manifestWrites_append (l1 l2 : List Event) :
    manifestWrites (l1 ++ l2) = manifestWrites l1 ++ manifestWrites l2 := by
  simp [manifestWrites]

lemma combinedWrites_append (l1 l2 : List Event) :
    combinedWrites (l1 ++ l2) = combinedWrites l1 ++ combinedWrites l2 := by
  simp [combinedWrites]

lemma generate_audio_manifestWrites (tts : ServeTTSRequest → TTSResponse)
    (turns : List String) (ref cid cdir role : String) :
    manifestWrites (generate_audio tts turns ref cid cdir role).2 = [] :=
  (go_classes tts ref cdir role turns 0 []).1

lemma generate_audio_combinedWrites (tts : ServeTTSRequest → TTSResponse)
    (turns : List String) (ref cid cdir role : String) :
    combinedWrites (generate_audio tts turns ref cid cdir role).2 = [] :=
  (go_classes tts ref cdir role turns 0 []).2

/-- A TTS oracle that fails exactly on the text `u2`. -/
def ttsFail2 : ServeTTSRequest → TTSResponse := fun r =>
  if r.text = "u2" then { status_code := 500, content := [], text := "err" }
  else { status_code := 200, content := [7], text := "ok" }

/-- An environment whose single-turn oracle fails on `u2`. -/
def envC1 : Env :=
  { tts := ttsFail2, ttsBatch := batchFail,
    existingDirs := [], existingFiles := [],
    chooseUser := "v1", chooseAssistant := "v2" }

/-- A conversation with three user turns (the second will fail) and two
assistant turns. -/
def convC1 : Conversation :=
  ⟨"c", [⟨some "u1", some "a1"⟩, ⟨some "u2", some "a2"⟩, ⟨some "u3", none⟩]⟩

/-- C1 counterexample: with user turn 2 of 3 failing synthesis (the
user-role generator returns empty, first conjunct), the orchestrator still
generates and writes assistant audio (second conjunct: the first assistant
clip is written), so "no assistant audio is generated" is false — the
assistant role is generated unconditionally before the failure check. -/
theorem C1_counterexample :
    (generate_audio envC1.tts (convC1.data.filterMap (fun e => e.user)) envC1.chooseUser
        convC1.id (joinPath "out" convC1.id) "user").1 = [] ∧
    Event.writeFile (joinPath (joinPath "out" convC1.id) (turnFileName "assistant" 0)) [7]
      ∈ generate_audio_for_conversation envC1 convC1 "out" := by
  decide

/-- C1 (amended): if the user-role synthesis first fails at turn k, the
conversation is aborted — no combined track is written and no manifest is
written (the assistant role's generation is still attempted beforehand) —
and an error record is appended to the conversation's error log. -/
theorem C1_abort_amended (env : Env) (conv : Conversation) (output_dir : String) (k : Nat)
    (hmanifest : ¬ (joinPath output_dir conv.id ∈ env.existingDirs ∧
        joinPath (joinPath output_dir conv.id) (conv.id ++ ".json") ∈ env.existingFiles))
    (hk : k < (conv.data.filterMap (fun e => e.user)).length)
    (hok : ∀ j, j < k →
      (env.tts (mkSingleRequest ((conv.data.filterMap (fun e => e.user)).getD j "")
        env.chooseUser (cacheHint j))).status_code = 200)
    (hfail : (env.tts (mkSingleRequest ((conv.data.filterMap (fun e => e.user)).getD k "")
        env.chooseUser (cacheHint k))).status_code ≠ 200) :
    combinedWrites (generate_audio_for_conversation env conv output_dir) = [] ∧
    manifestWrites (generate_audio_for_conversation env conv output_dir) = [] ∧
    ∃ msg, Event.appendFile
        (error_log_path (joinPath (joinPath output_dir conv.id) (turnFileName "user" k))) msg
      ∈ generate_audio_for_conversation env conv output_dir := by
  obtain ⟨hu1, _, hu3⟩ :=
    go_first_fail env.tts env.chooseUser (joinPath output_dir conv.id) "user"
      (conv.data.filterMap (fun e => e.user)) k 0 [] hk
      (by intro j hj; simpa using hok j hj) (by simpa using hfail)
  have hu1' : (generate_audio env.tts (conv.data.filterMap (fun e => e.user)) env.chooseUser
      conv.id (joinPath output_dir conv.id) "user").1 = [] := hu1
  unfold generate_audio_for_conversation
  rw [if_neg hmanifest, if_pos (Or.inl hu1')]
  refine ⟨?_, ?_, ?_⟩
  · rw [combinedWrites_cons_mkdirs, combinedWrites_append,
      generate_audio_combinedWrites, generate_audio_combinedWrites]
    rfl
  · rw [manifestWrites_cons_mkdirs, manifestWrites_append,
      generate_audio_manifestWrites, generate_audio_manifestWrites]
    rfl
  · simp only [Nat.zero_add] at hu3
    exact ⟨_, List.mem_cons_of_mem _ (List.mem_append_left _ hu3)⟩

/-- Witness for the amended C1 at a concrete input: user turn 2 of 3 fails. -/
theorem C1_abort_amended_witness :
    combinedWrites (generate_audio_for_conversation envC1 convC1 "out") = [] ∧
    manifestWrites (generate_audio_for_conversation envC1 convC1 "out") = [] ∧
    ∃ msg, Event.appendFile
        (error_log_path (joinPath (joinPath "out" convC1.id) (turnFileName "user" 1))) msg
      ∈ generate_audio_for_conversation envC1 convC1 "out" :=
  C1_abort_amended envC1 convC1 "out" 1 (by decide) (by decide)
    (by intro j hj; have hj0 : j = 0 := (by omega); rw [hj0]; decide)
    (by decide)

/-- C8: when a conversation is not skipped and both roles' generators
return non-empty path lists, the orchestrator's trace ends with the single
manifest write; the manifest it writes is the only manifest write of the
run, its turn fields are verbatim the per-role utterance sequences
extracted from the conversation data, and its reference-id fields are the
voice ids chosen for the run. -/
theorem C8_manifest_fidelity (env : Env) (conv : Conversation) (output_dir : String)
    (hmanifest : ¬ (joinPath output_dir conv.id ∈ env.existingDirs ∧
        joinPath (joinPath output_dir conv.id) (conv.id ++ ".json") ∈ env.existingFiles))
    (hu : (generate_audio env.tts (conv.data.filterMap (fun e => e.user)) env.chooseUser
        conv.id (joinPath output_dir conv.id) "user").1 ≠ [])
    (ha : (generate_audio env.tts (conv.data.filterMap (fun e => e.assistant)) env.chooseAssistant
        conv.id (joinPath output_dir conv.id) "assistant").1 ≠ []) :
    manifestWrites (generate_audio_for_conversation env conv output_dir)
      = [(joinPath (joinPath output_dir conv.id) (conv.id ++ ".json"),
          { conversation_id := conv.id,
            user_turns := conv.data.filterMap (fun e => e.user),
            assistant_turns := conv.data.filterMap (fun e => e.assistant),
            user_reference_id := env.chooseUser,
            assistant_reference_id := env.chooseAssistant })] ∧
    (generate_audio_for_conversation env conv output_dir).getLast?
      = some (Event.writeManifest
          (joinPath (joinPath output_dir conv.id) (conv.id ++ ".json"))
          { conversation_id := conv.id,
            user_turns := conv.data.filterMap (fun e => e.user),
            assistant_turns := conv.data.filterMap (fun e => e.assistant),
            user_reference_id := env.chooseUser,
            assistant_reference_id := env.chooseAssistant }) := by
  unfold generate_audio_for_conversation
  rw [if_neg hmanifest, if_neg (not_or.mpr ⟨hu, ha⟩)]
  simp only [merge_audio_files, save_json]
  constructor
  · rw [manifestWrites_cons_mkdirs, manifestWrites_append, manifestWrites_append,
      manifestWrites_append, generate_audio_manifestWrites, generate_audio_manifestWrites]
    simp [manifestWrites]
  · rw [← List.cons_append, List.getLast?_concat]

/-- A TTS oracle that always succeeds. -/
def ttsAllOk : ServeTTSRequest → TTSResponse :=
  fun _ => { status_code := 200, content := [9], text := "ok" }

/-- An environment whose single-turn oracle always succeeds. -/
def envOk : Env :=
  { tts := ttsAllOk, ttsBatch := batchFail,
    existingDirs := [], existingFiles := [],
    chooseUser := "v1", chooseAssistant := "v2" }

/-- A two-exchange conversation with both roles present. -/
def convOk : Conversation :=
  ⟨"c", [⟨some "u1", some "a1"⟩, ⟨some "u2", some "a2"⟩]⟩

/-- Witness for C8 at a concrete input: a fully successful conversation. -/
theorem C8_manifest_fidelity_witness :
    manifestWrites (generate_audio_for_conversation envOk convOk "out")
      = [(joinPath (joinPath "out" convOk.id) (convOk.id ++ ".json"),
          { conversation_id := convOk.id,
            user_turns := convOk.data.filterMap (fun e => e.user),
            assistant_turns := convOk.data.filterMap (fun e => e.assistant),
            user_reference_id := envOk.chooseUser,
            assistant_reference_id := envOk.chooseAssistant })] ∧
    (generate_audio_for_conversation envOk convOk "out").getLast?
      = some (Event.writeManifest
          (joinPath (joinPath "out" convOk.id) (convOk.id ++ ".json"))
          { conversation_id := convOk.id,
            user_turns := convOk.data.filterMap (fun e => e.user),
            assistant_turns := convOk.data.filterMap (fun e => e.assistant),
            user_reference_id := envOk.chooseUser,
            assistant_reference_id := envOk.chooseAssistant }) :=
  C8_manifest_fidelity envOk convOk "out" (by decide) (by decide) (by decide)

/-- C9: a conversation in which one role has zero utterances makes that
role's generator return the empty list with an empty trace (it issued no
request, so nothing failed and nothing is logged), and the orchestrator
then treats the conversation as failed: no combined track and no manifest
are written, so the conversation is never marked done and is reprocessed
from scratch by any future run. -/
theorem C9_empty_role (env : Env) (conv : Conversation) (output_dir : String)
    (hmanifest : ¬ (joinPath output_dir conv.id ∈ env.existingDirs ∧
        joinPath (joinPath output_dir conv.id) (conv.id ++ ".json") ∈ env.existingFiles))
    (hrole : conv.data.filterMap (fun e => e.user) = [] ∨
        conv.data.filterMap (fun e => e.assistant) = []) :
    (generate_audio env.tts (conv.data.filterMap (fun e => e.user)) env.chooseUser
        conv.id (joinPath output_dir conv.id) "user" = ([], []) ∨
     generate_audio env.tts (conv.data.filterMap (fun e => e.assistant)) env.chooseAssistant
        conv.id (joinPath output_dir conv.id) "assistant" = ([], [])) ∧
    combinedWrites (generate_audio_for_conversation env conv output_dir) = [] ∧
    manifestWrites (generate_audio_for_conversation env conv output_dir) = [] ∧
    (∀ env2 : Env,
      joinPath (joinPath output_dir conv.id) (conv.id ++ ".json") ∉ env2.existingFiles →
      generate_audio_for_conversation env2 conv output_dir ≠ []) := by
  have hgen : (generate_audio env.tts (conv.data.filterMap (fun e => e.user)) env.chooseUser
        conv.id (joinPath output_dir conv.id) "user").1 = [] ∨
      (generate_audio env.tts (conv.data.filterMap (fun e => e.assistant)) env.chooseAssistant
        conv.id (joinPath output_dir conv.id) "assistant").1 = [] := by
    rcases hrole with h | h
    · left; rw [h]; rfl
    · right; rw [h]; rfl
  refine ⟨?_, ?_⟩
  · rcases hrole with h | h
    · left; rw [h]; rfl
    · right; rw [h]; rfl
  · refine ⟨?_, ?_, ?_⟩
    · unfold generate_audio_for_conversation
      rw [if_neg hmanifest, if_pos hgen]
      rw [combinedWrites_cons_mkdirs, combinedWrites_append,
        generate_audio_combinedWrites, generate_audio_combinedWrites]
      rfl
    · unfold generate_audio_for_conversation
      rw [if_neg hmanifest, if_pos hgen]
      rw [manifestWrites_cons_mkdirs, manifestWrites_append,
        generate_audio_manifestWrites, generate_audio_manifestWrites]
      rfl
    · intro env2 habsent
      have hno : ¬ (joinPath output_dir conv.id ∈ env2.existingDirs ∧
          joinPath (joinPath output_dir conv.id) (conv.id ++ ".json")
            ∈ env2.existingFiles) := by
        intro hc
        exact habsent hc.2
      unfold generate_audio_for_conversation
      rw [if_neg hno]
      by_cases hg : (generate_audio env2.tts (conv.data.filterMap (fun e => e.user))
            env2.chooseUser conv.id (joinPath output_dir conv.id) "user").1 = [] ∨
          (generate_audio env2.tts (conv.data.filterMap (fun e => e.assistant))
            env2.chooseAssistant conv.id (joinPath output_dir conv.id) "assistant").1 = []
      · rw [if_pos hg]; simp
      · rw [if_neg hg]; simp

/-- A conversation whose user role has zero utterances. -/
def convNoUser : Conversation := ⟨"c", [⟨none, some "a1"⟩, ⟨none, some "a2"⟩]⟩

/-- Witness for C9 at a concrete input: no user utterances at all. -/
theorem C9_empty_role_witness :
    (generate_audio envOk.tts (convNoUser.data.filterMap (fun e => e.user)) envOk.chooseUser
        convNoUser.id (joinPath "out" convNoUser.id) "user" = ([], []) ∨
     generate_audio envOk.tts (convNoUser.data.filterMap (fun e => e.assistant))
        envOk.chooseAssistant convNoUser.id (joinPath "out" convNoUser.id) "assistant"
        = ([], [])) ∧
    combinedWrites (generate_audio_for_conversation envOk convNoUser "out") = [] ∧
    manifestWrites (generate_audio_for_conversation envOk convNoUser "out") = [] ∧
    (∀ env2 : Env,
      joinPath (joinPath "out" convNoUser.id) (convNoUser.id ++ ".json")
          ∉ env2.existingFiles →
      generate_audio_for_conversation env2 convNoUser "out" ≠ []) :=
  C9_empty_role envOk convNoUser "out" (by decide) (by decide)

/-- A batch oracle answering 200 with three buffers. -/
def batchOk3 : ServeTTSBatchRequest → BatchResponse :=
  fun _ => { status_code := 200, audios := some [[1], [2], [3]], text := "" }

/-- A batch oracle answering 200 with an empty buffer list. -/
def batchEmpty : ServeTTSBatchRequest → BatchResponse :=
  fun _ => { status_code := 200, audios := some [], text := "" }

/-- An environment whose batch oracle returns 200 with no buffers. -/
def envBatchEmpty : Env :=
  { tts := ttsAllOk, ttsBatch := batchEmpty,
    existingDirs := [], existingFiles := [],
    chooseUser := "v", chooseAssistant := "v" }

/-- Witness for C10 at concrete inputs: a 200 response with three buffers
against two texts writes three files; an empty `audios` list yields the
empty result and the batch orchestrator writes neither combined track nor
manifest. -/
theorem C10_batch_no_length_check_witness :
    (generate_audio_batch batchOk3 ["t1", "t2"] "v" "c" "out/c" "user").1.length = 3 ∧
    (generate_audio_batch batchEmpty ["t1"] "v" "c" "out/c" "user").1 = [] ∧
    combinedWrites (generate_audio_for_conversation_batch envBatchEmpty convOk "out") = [] ∧
    manifestWrites (generate_audio_for_conversation_batch envBatchEmpty convOk "out") = [] := by
  have h1 := C10_batch_no_length_check batchOk3 ["t1", "t2"] "v" "c" "out/c" "user" (by decide)
  have h2 := C10_batch_no_length_check batchEmpty ["t1"] "v" "c" "out/c" "user" (by decide)
  refine ⟨?_, ?_, ?_, ?_⟩
  · rw [h1.1]; decide
  · exact h2.2.2.1 (by decide)
  · exact (h2.2.2.2 envBatchEmpty convOk "out" (by decide)).1
  · exact (h2.2.2.2 envBatchEmpty convOk "out" (by decide)).2

end FishSpeech
